import Mathlib

set_option maxRecDepth 16384
set_option maxHeartbeats 1000000

/-!
Verification of the OSA client SDK auth/HTTP core.

Shallow embedding of the client SDK's authentication token lifecycle and
HTTP request pipeline (files `src/web/src/lib/sdk/{auth,http,storage,client}.ts`),
with theorems settling the spec's claims about it.

Conventions of the embedding:
* JavaScript numbers that can become `NaN` (via `parseInt` on a non-numeric
  string) are modelled as `Option Int` (`none` = NaN); timestamps are in
  milliseconds. All comparisons with NaN are false, as in JavaScript.
* JavaScript string truthiness (`!s`) is emptiness: `undefined`/absent and
  `""` behave identically in every truthiness test the code performs, so a
  possibly-absent string field is modelled as a `String` where `""` covers
  both.
* Network effects are modelled by passing in a "world" value describing the
  outcome of each `fetch` the code would perform (throw, or a response).
* A thrown JavaScript exception is an explicit `thrown`/`error` result.
-/

namespace OSA

/-- A JavaScript number that may be `NaN` (`none`). -/
abbrev JSNum := Option Int

/-- JavaScript `+` on possibly-NaN numbers. -/
def jsAdd : JSNum → JSNum → JSNum
  | some a, some b => some (a + b)
  | _, _ => none

/-- JavaScript `a - b` where `b` is a genuine integer. -/
def jsSubInt : JSNum → Int → JSNum
  | some a, b => some (a - b)
  | none, _ => none

/-- JavaScript `a <= b`: false when either side is NaN. -/
def jsLe : JSNum → JSNum → Bool
  | some a, some b => a ≤ b
  | _, _ => false

/-- JavaScript `a < b`: false when either side is NaN. -/
def jsLt : JSNum → JSNum → Bool
  | some a, some b => a < b
  | _, _ => false

/-- JavaScript `*` on possibly-NaN numbers. -/
def jsMul : JSNum → JSNum → JSNum
  | some a, some b => some (a * b)
  | _, _ => none

/-- Type `TokenPair` from `types.ts`: `{accessToken, refreshToken, expiresAt}`,
`expiresAt` an absolute timestamp in ms (possibly NaN if it was derived from a
non-numeric `expires_in`). -/
structure TokenPair where
  accessToken : String
  refreshToken : String
  expiresAt : JSNum
deriving DecidableEq, Repr

/-- Type `User` from `types.ts`: `{id, displayName: string|null, externalId}`. -/
structure User where
  id : String
  displayName : Option String
  externalId : String
deriving DecidableEq, Repr

/-- Type `StoredAuth` from `storage.ts`: the atomic `{tokens, user}` record. -/
structure StoredAuth where
  tokens : TokenPair
  user : User
deriving DecidableEq, Repr

/-! ## TokenStorage implementations (`storage.ts`)

`MemoryTokenStorage` holds `auth: StoredAuth | null` directly.
`LocalTokenStorage` keeps a JSON string under one localStorage key; the cell is
modelled as absent (`none`), syntactically corrupt JSON (`LSCell.corrupt`,
making `JSON.parse` throw), or a parsed record (`LSCell.record`). The browser
case (`typeof window !== 'undefined'`) is modelled; outside a browser every
method is a no-op returning null. -/

/-- Model of `MemoryTokenStorage.get`: returns the held value with no validation. -/
def memGet (s : Option StoredAuth) : Option StoredAuth := s

/-- Model of `MemoryTokenStorage.set`. -/
def memSet (a : StoredAuth) (_ : Option StoredAuth) : Option StoredAuth := some a

/-- Model of `MemoryTokenStorage.clear`. -/
def memClear (_ : Option StoredAuth) : Option StoredAuth := none

/-- Content of the localStorage cell backing `LocalTokenStorage`. -/
inductive LSCell where
  | corrupt
  | record (a : StoredAuth)
deriving DecidableEq, Repr

/-- Model of `LocalTokenStorage.get`: parses the cell and validates that the record has
a truthy access token, refresh token and user id, returning null otherwise. -/
def localGet : Option LSCell → Option StoredAuth
  | none => none
  | some .corrupt => none
  | some (.record a) =>
    if a.tokens.accessToken = "" ∨ a.tokens.refreshToken = "" ∨ a.user.id = ""
    then none
    else some a

/-- Model of `LocalTokenStorage.set`: serialises the record into the cell. -/
def localSet (a : StoredAuth) (_ : Option LSCell) : Option LSCell :=
  some (.record a)

/-- Model of `LocalTokenStorage.clear`: removes the cell. -/
def localClear (_ : Option LSCell) : Option LSCell := none

/-! ## HTTP request pipeline (`http.ts`, `HttpClient.fetch`) -/

/-- An HTTP response, identified by its status and a tag standing for the rest
of the response object (body, headers, object identity). -/
structure Response where
  status : Nat
  tag : Nat
deriving DecidableEq, Repr

/-- The caller-supplied `RequestInit` options relevant to the pipeline. -/
structure RequestOptions where
  method : String
  body : Option String
  headers : List (String × String)
deriving DecidableEq, Repr

/-- Model of `Headers.set`: replace any existing entry for the key and add the pair. -/
def setHeader (hs : List (String × String)) (k v : String) :
    List (String × String) :=
  hs.filter (fun p => p.1 ≠ k) ++ [(k, v)]

/-- A request as actually sent over the network. -/
structure SentRequest where
  path : String
  method : String
  body : Option String
  headers : List (String × String)
deriving DecidableEq, Repr

/-- Outcome of one network `fetch`: the promise rejects, or resolves. -/
inductive NetOutcome where
  | throw
  | resp (r : Response)
deriving DecidableEq, Repr

/-- The environment of a single `HttpClient.fetch` call: outcome of the first
send, whether the wired refresh callback resolves or rejects, the storage
contents after the refresh callback has run, and the outcome of the retry. -/
structure HttpWorld where
  first : NetOutcome
  refreshSucceeds : Bool
  postRefreshStorage : Option StoredAuth
  second : NetOutcome
deriving DecidableEq, Repr

/-- What a `fetch` call produced: a thrown exception or a returned response. -/
inductive FetchRes where
  | thrown
  | returned (r : Response)
deriving DecidableEq, Repr

/-- Result of one `HttpClient.fetch` call, with the observable trace: the
requests that went on the wire and how many times the refresh callback ran. -/
structure HttpResult where
  outcome : FetchRes
  sent : List SentRequest
  refreshCalls : Nat
deriving DecidableEq, Repr

/-- Computes the `stored?.tokens?.accessToken` truthiness followed by the `Headers.set`
call of `http.ts` lines 25–27: the headers the first request goes out with. -/
def authHeaders (opts : RequestOptions) (storage0 : Option StoredAuth) :
    List (String × String) :=
  match storage0 with
  | some st =>
    if st.tokens.accessToken ≠ ""
    then setHeader opts.headers "Authorization"
      ("Bearer " ++ st.tokens.accessToken)
    else opts.headers
  | none => opts.headers

/-- Computes the `stored?.tokens?.refreshToken` truthiness (`http.ts` line 35). -/
def storedRefreshToken (storage0 : Option StoredAuth) : Bool :=
  match storage0 with
  | some st => st.tokens.refreshToken ≠ ""
  | none => false

/-- The guard of `http.ts` line 35: 401 status, a stored refresh token, and a
wired refresh callback. -/
def retryEligible (storage0 : Option StoredAuth) (wired : Bool)
    (r : Response) : Prop :=
  r.status = 401 ∧ storedRefreshToken storage0 = true ∧ wired = true

instance (storage0 : Option StoredAuth) (wired : Bool) (r : Response) :
    Decidable (retryEligible storage0 wired r) := by
  unfold retryEligible
  exact inferInstance

/-- Model of `HttpClient.fetch` (`http.ts` lines 21–52). `storage0` is what
`this.storage?.get()` returns at entry (`none` also covers a client built
without a storage); `refreshWired` is whether `setRefreshFn` has been called. -/
def httpFetch (path : String) (opts : RequestOptions)
    (storage0 : Option StoredAuth) (refreshWired : Bool) (w : HttpWorld) :
    HttpResult :=
  let headers := authHeaders opts storage0
  let req1 : SentRequest := ⟨path, opts.method, opts.body, headers⟩
  match w.first with
  | .throw => ⟨.thrown, [req1], 0⟩
  | .resp r =>
    if retryEligible storage0 refreshWired r then
      if w.refreshSucceeds then
        match w.postRefreshStorage with
        | some ns =>
          if ns.tokens.accessToken ≠ "" then
            let headers2 := setHeader headers "Authorization"
              ("Bearer " ++ ns.tokens.accessToken)
            let req2 : SentRequest := ⟨path, opts.method, opts.body, headers2⟩
            match w.second with
            | .throw => ⟨.thrown, [req1, req2], 1⟩
            | .resp r2 => ⟨.returned r2, [req1, req2], 1⟩
          else ⟨.returned r, [req1], 1⟩
        | none => ⟨.returned r, [req1], 1⟩
      else ⟨.returned r, [req1], 1⟩
    else ⟨.returned r, [req1], 0⟩

lemma httpFetch_sent_length_le (path : String) (opts : RequestOptions)
    (storage0 : Option StoredAuth) (wired : Bool) (w : HttpWorld) :
    (httpFetch path opts storage0 wired w).sent.length ≤ 2 := by
  unfold httpFetch
  dsimp only
  repeat' split
  all_goals simp

lemma httpFetch_refreshCalls_le (path : String) (opts : RequestOptions)
    (storage0 : Option StoredAuth) (wired : Bool) (w : HttpWorld) :
    (httpFetch path opts storage0 wired w).refreshCalls ≤ 1 := by
  unfold httpFetch
  dsimp only
  repeat' split
  all_goals simp

/-- C1: for every call to `HttpClient.fetch(path, options)`, the original
request is sent at most twice and the refresh callback is invoked at most
once.  If the first response is a 401 and a stored refresh token and a wired
refresh callback exist, the callback is invoked; on its success (with the new
access token readable from storage) the same request — same path, method,
body, and other headers, with `Authorization` updated to the new token — is
resent exactly once and that second response is returned regardless of its
status; on its failure the original 401 response is returned; in every other
case the first response is returned as received, with no refresh attempted. -/
theorem httpFetch_retry_at_most_once (path : String) (opts : RequestOptions)
    (storage0 : Option StoredAuth) (wired : Bool) (w : HttpWorld) :
    (httpFetch path opts storage0 wired w).sent.length ≤ 2 ∧
    (httpFetch path opts storage0 wired w).refreshCalls ≤ 1 ∧
    ∀ r, w.first = .resp r →
      (retryEligible storage0 wired r →
        (httpFetch path opts storage0 wired w).refreshCalls = 1 ∧
        (w.refreshSucceeds = false →
          httpFetch path opts storage0 wired w =
            ⟨.returned r,
             [⟨path, opts.method, opts.body, authHeaders opts storage0⟩],
             1⟩) ∧
        (∀ ns r2, w.refreshSucceeds = true → w.postRefreshStorage = some ns →
          ns.tokens.accessToken ≠ "" → w.second = .resp r2 →
          httpFetch path opts storage0 wired w =
            ⟨.returned r2,
             [⟨path, opts.method, opts.body, authHeaders opts storage0⟩,
              ⟨path, opts.method, opts.body,
               setHeader (authHeaders opts storage0) "Authorization"
                 ("Bearer " ++ ns.tokens.accessToken)⟩],
             1⟩)) ∧
      (¬ retryEligible storage0 wired r →
        httpFetch path opts storage0 wired w =
          ⟨.returned r,
           [⟨path, opts.method, opts.body, authHeaders opts storage0⟩],
           0⟩) := by
  refine ⟨httpFetch_sent_length_le path opts storage0 wired w,
    httpFetch_refreshCalls_le path opts storage0 wired w, ?_⟩
  intro r hfirst
  constructor
  · intro helig
    refine ⟨?_, ?_, ?_⟩
    · unfold httpFetch
      rw [hfirst]
      simp only [if_pos helig]
      split
      · cases hps : w.postRefreshStorage with
        | none => simp
        | some ns =>
          simp only
          split
          · cases hsec : w.second <;> simp
          · simp
      · simp
    · intro hfail
      unfold httpFetch
      rw [hfirst, hfail]
      simp [if_pos helig]
    · intro ns r2 hsucc hps hat hsec
      unfold httpFetch
      rw [hfirst, hsucc, hps, hsec]
      simp [if_pos helig, if_pos hat]
  · intro hnot
    unfold httpFetch
    rw [hfirst]
    simp [if_neg hnot]

/-- Concrete session stored before the C1 scenario. -/
def sess0 : StoredAuth :=
  ⟨⟨"at0", "rt0", some 1000000⟩, ⟨"u1", none, "0000-0001-2345-6789"⟩⟩

/-- Concrete session in storage after the refresh callback succeeds. -/
def sess1 : StoredAuth :=
  ⟨⟨"at1", "rt1", some 2000000⟩, ⟨"u1", none, "0000-0001-2345-6789"⟩⟩

/-- Concrete request options for the C1 scenario. -/
def httpOpts0 : RequestOptions :=
  ⟨"GET", none, [("Accept", "application/json")]⟩

/-- Concrete world: first send gets a 401, refresh succeeds and stores
`sess1`, the retry gets a 200. -/
def httpWorld0 : HttpWorld :=
  ⟨.resp ⟨401, 1⟩, true, some sess1, .resp ⟨200, 2⟩⟩

/-- Witness for C1: in the concrete 401-then-refresh-then-200 scenario the
pipeline returns the 200 response, sends exactly two requests, and calls the
refresh callback exactly once. -/
theorem httpFetch_retry_at_most_once_witness :
    httpFetch "/records" httpOpts0 (some sess0) true httpWorld0 =
      ⟨.returned ⟨200, 2⟩,
       [⟨"/records", "GET", none, authHeaders httpOpts0 (some sess0)⟩,
        ⟨"/records", "GET", none,
         setHeader (authHeaders httpOpts0 (some sess0)) "Authorization"
           ("Bearer " ++ sess1.tokens.accessToken)⟩],
       1⟩ := by
  have h :=
    (httpFetch_retry_at_most_once "/records" httpOpts0 (some sess0) true
      httpWorld0).2.2 ⟨401, 1⟩ rfl
  exact (h.1 (by decide)).2.2 sess1 ⟨200, 2⟩ rfl rfl (by decide) rfl

/-! ## AuthClient (`auth.ts` lines 90–220)

The session manager's mutable state is its storage backend plus the
single auto-refresh timer slot.  The storage backend is modelled with the
in-memory semantics (`memGet`/`memSet`/`memClear`): read back exactly what was
written, absent after a clear.  A timer is modelled by the delay it was armed
with (`refreshTimer = some delay`); `none` means no timer outstanding. -/

/-- Type `SDKConfig`: `autoRefresh` and `refreshThreshold` may be absent, matching
the `!== false` and `|| 300` defaulting tests the code performs on them. -/
structure AuthConfig where
  baseUrl : String
  autoRefresh : Option Bool
  refreshThreshold : Option Int
deriving DecidableEq, Repr

/-- Test `this.config.autoRefresh !== false` (`auth.ts` lines 127, 161). -/
def autoRefreshEnabled (cfg : AuthConfig) : Bool :=
  cfg.autoRefresh ≠ some false

/-- Computation `(this.config.refreshThreshold || 300) * 1000` (`auth.ts` line 200):
an absent or zero (falsy) threshold falls back to 300 seconds. -/
def thresholdMs (cfg : AuthConfig) : Int :=
  (match cfg.refreshThreshold with
    | some t => if t = 0 then 300 else t
    | none => 300) * 1000

/-- The config the `OSAClient` constructor builds (`client.ts` lines 15–29):
`autoRefresh: options.autoRefresh ?? true`,
`refreshThreshold: options.refreshThreshold ?? 300`.  Note `??` keeps an
explicit `0`. -/
def osaClientConfig (baseUrl : String) (autoRefresh : Option Bool)
    (refreshThreshold : Option Int) : AuthConfig :=
  ⟨baseUrl, some (autoRefresh.getD true), some (refreshThreshold.getD 300)⟩

/-- Mutable state of one `AuthClient` instance. -/
structure AuthState where
  storage : Option StoredAuth
  refreshTimer : Option Int
deriving DecidableEq, Repr

/-- Model of `AuthClient.setupAutoRefresh` (`auth.ts` lines 197–212): cancel any
previous timer, compute `expiresAt - now - threshold`, and arm a single-shot
timer iff that delay is strictly positive. -/
def setupAutoRefresh (cfg : AuthConfig) (tokens : TokenPair) (now : Int)
    (st : AuthState) : AuthState :=
  let st1 : AuthState := { st with refreshTimer := none }
  let timeUntilRefresh := jsSubInt (jsSubInt tokens.expiresAt now)
    (thresholdMs cfg)
  if jsLt (some 0) timeUntilRefresh then
    { st1 with refreshTimer := timeUntilRefresh }
  else st1

/-- Type `AuthCallbackParams` as produced by `parseAuthCallback`. -/
structure AuthCallbackParams where
  accessToken : String
  refreshToken : String
  tokenType : String
  expiresIn : JSNum
  userId : String
  displayName : String
  externalId : String
deriving DecidableEq, Repr

/-- Model of `AuthClient.handleCallback` (`auth.ts` lines 112–132): build the token
pair (`expiresAt = Date.now() + expiresIn * 1000`) and user
(`displayName: params.displayName || null`), persist them, arm auto-refresh
when enabled, and return the pair. -/
def handleCallbackClient (cfg : AuthConfig) (p : AuthCallbackParams)
    (now : Int) (st : AuthState) : (User × TokenPair) × AuthState :=
  let tokens : TokenPair :=
    ⟨p.accessToken, p.refreshToken,
     jsAdd (some now) (jsMul p.expiresIn (some 1000))⟩
  let user : User :=
    ⟨p.userId, if p.displayName = "" then none else some p.displayName,
     p.externalId⟩
  let st1 : AuthState := { st with storage := memSet ⟨tokens, user⟩ st.storage }
  let st2 :=
    if autoRefreshEnabled cfg then setupAutoRefresh cfg tokens now st1 else st1
  ((user, tokens), st2)

/-- The refresh endpoint's success body `{access_token, refresh_token,
token_type, expires_in}`, cast without validation in the source. -/
structure TokenResponse where
  access_token : String
  refresh_token : String
  expires_in : JSNum
deriving DecidableEq, Repr

/-- Environment of one `AuthClient.refresh` call: the `fetch` promise rejects,
or resolves with `response.ok` and the parsed JSON body. -/
inductive RefreshWorld where
  | netThrow
  | resp (ok : Bool) (data : TokenResponse)
deriving DecidableEq, Repr

/-- The errors `AuthClient.refresh` can raise. -/
inductive RefreshError where
  | noRefreshToken
  | transport
  | refreshFailed
deriving DecidableEq, Repr

/-- Outcome of one `AuthClient.refresh` call. -/
inductive RefreshResult where
  | ok (tokens : TokenPair)
  | err (e : RefreshError)
deriving DecidableEq, Repr

/-- Model of `AuthClient.refresh` (`auth.ts` lines 134–166).  A rejected `fetch`
(`.netThrow`) propagates out of the method before the `response.ok` test is
reached, so storage is only cleared on a delivered non-ok response. -/
def refresh (cfg : AuthConfig) (now : Int) (st : AuthState)
    (w : RefreshWorld) : RefreshResult × AuthState :=
  match memGet st.storage with
  | none => (.err .noRefreshToken, st)
  | some stored =>
    if stored.tokens.refreshToken = "" then (.err .noRefreshToken, st)
    else
      match w with
      | .netThrow => (.err .transport, st)
      | .resp ok data =>
        if ok = false then
          (.err .refreshFailed, { st with storage := memClear st.storage })
        else
          let tokens : TokenPair :=
            ⟨data.access_token, data.refresh_token,
             jsAdd (some now) (jsMul data.expires_in (some 1000))⟩
          let st1 : AuthState :=
            { st with storage := memSet ⟨tokens, stored.user⟩ st.storage }
          let st2 :=
            if autoRefreshEnabled cfg then setupAutoRefresh cfg tokens now st1
            else st1
          (.ok tokens, st2)

/-- Environment of the fire-and-forget server call in `AuthClient.logout`. -/
inductive LogoutWorld where
  | netThrow
  | resp
deriving DecidableEq, Repr

/-- Model of `AuthClient.logout` (`auth.ts` lines 168–184): best-effort server call
whose rejection is swallowed by the empty `catch`, then `storage.clear()` and
`cancelAutoRefresh()`.  The result type has no error channel because no path
out of the method throws. -/
def logout (st : AuthState) (w : LogoutWorld) : AuthState :=
  let afterServer : AuthState :=
    if storedRefreshToken (memGet st.storage) = true then
      match w with
      | .netThrow => st
      | .resp => st
    else st
  { afterServer with
    storage := memClear afterServer.storage, refreshTimer := none }

/-- Model of `AuthClient.getStoredAuth` (`auth.ts` lines 186–195): absent storage, or
`expiresAt <= Date.now()`, reads as null; storage is not cleared. -/
def getStoredAuth (now : Int) (st : AuthState) : Option StoredAuth :=
  match memGet st.storage with
  | none => none
  | some stored =>
    if jsLe stored.tokens.expiresAt (some now) then none else some stored

/-- Model of `AuthNamespace.isAuthenticated` (`auth.ts` lines 269–272):
`getStoredAuth() !== null && auth.tokens.expiresAt > Date.now()`; both time
reads are modelled as the same instant `now`. -/
def isAuthenticated (now : Int) (st : AuthState) : Bool :=
  match getStoredAuth now st with
  | none => false
  | some auth => jsLt (some now) auth.tokens.expiresAt

/-- C5: with a stored session whose `expiresAt` is the timestamp `e`,
`isAuthenticated()` returns true iff `e` is strictly greater than the current
time; at the boundary `e = now` it returns false and `getStoredAuth()` returns
null, as it does for any expired session. -/
theorem isAuthenticated_strict_gt (st : AuthState) (sess : StoredAuth)
    (e now : Int) (hs : st.storage = some sess)
    (he : sess.tokens.expiresAt = some e) :
    (isAuthenticated now st = true ↔ e > now) ∧
    (e = now → isAuthenticated now st = false) ∧
    (e ≤ now → getStoredAuth now st = none) := by
  have key : isAuthenticated now st = decide (now < e) := by
    by_cases h : e ≤ now
    · have hn : ¬ now < e := by omega
      simp [isAuthenticated, getStoredAuth, memGet, hs, he, jsLe, h, hn]
    · simp [isAuthenticated, getStoredAuth, memGet, hs, he, jsLe, jsLt, h]
  refine ⟨?_, ?_, ?_⟩
  · rw [key]
    simp only [decide_eq_true_eq, gt_iff_lt]
  · intro hEq
    rw [key, hEq]
    simp
  · intro hle
    simp [getStoredAuth, memGet, hs, he, jsLe, hle]

/-- Session expiring exactly at t = 5000 ms, for the C5 witness. -/
def sess5 : StoredAuth := ⟨⟨"a", "r", some 5000⟩, ⟨"u", none, "x"⟩⟩

/-- Witness for C5 at the boundary `expiresAt = now`. -/
theorem isAuthenticated_strict_gt_witness :
    isAuthenticated 5000 ⟨some sess5, none⟩ = false ∧
    getStoredAuth 5000 ⟨some sess5, none⟩ = none := by
  have h := isAuthenticated_strict_gt ⟨some sess5, none⟩ sess5 5000 5000 rfl rfl
  exact ⟨h.2.1 rfl, h.2.2 (le_refl _)⟩

/-- C7: the method `logout()` unconditionally clears the stored session and cancels
any pending auto-refresh timer, for every prior state and every outcome of the
best-effort server call (a rejected logout request is swallowed by the empty
`catch`; `logout`'s result type has no error channel).  Afterwards a storage
read returns absent. -/
theorem logout_clears_unconditionally (st : AuthState) (w : LogoutWorld) :
    (logout st w).storage = none ∧ (logout st w).refreshTimer = none ∧
    memGet (logout st w).storage = none :=
  ⟨rfl, rfl, rfl⟩

/-- Config used by the concrete refresh scenarios: threshold 300 s. -/
def cfgC2 : AuthConfig := ⟨"http://api.test", some true, some 300⟩

/-- Authenticated state holding `sess0` (expires at t = 1000000 ms). -/
def stAuth0 : AuthState := ⟨some sess0, none⟩

/-- Counterexample to C2 as stated: when the refresh `fetch` itself rejects
(network error), the error propagates but the stored session is NOT cleared —
a subsequent `getStoredAuth()` still returns the session, not null. -/
theorem refresh_netThrow_keeps_session :
    (refresh cfgC2 1000 stAuth0 .netThrow).1 = .err .transport ∧
    (refresh cfgC2 1000 stAuth0 .netThrow).2.storage = some sess0 ∧
    getStoredAuth 1000 (refresh cfgC2 1000 stAuth0 .netThrow).2 =
      some sess0 := by
  decide

/-- C2 (amended): with a stored session carrying a refresh token: if the
refresh endpoint returns a non-2xx response, `refresh()` clears the stored
session entirely and raises a refresh-failure error, so any subsequent
`getStoredAuth()` returns null; if the network call itself throws, the error
propagates to the caller but the stored state is left unchanged. -/
theorem refresh_fail_closed (cfg : AuthConfig) (now : Int) (st : AuthState)
    (sess : StoredAuth) (hs : st.storage = some sess)
    (hrt : sess.tokens.refreshToken ≠ "") :
    (∀ data, (refresh cfg now st (.resp false data)).1 = .err .refreshFailed ∧
      (refresh cfg now st (.resp false data)).2.storage = none ∧
      ∀ t, getStoredAuth t (refresh cfg now st (.resp false data)).2 = none) ∧
    ((refresh cfg now st .netThrow).1 = .err .transport ∧
      (refresh cfg now st .netThrow).2 = st) := by
  unfold refresh memGet memClear
  rw [hs]
  simp [hrt, getStoredAuth, memGet]

/-- Witness for C2 (amended): concrete non-2xx refresh clears the session and
`getStoredAuth` then returns null. -/
theorem refresh_fail_closed_witness :
    (refresh cfgC2 1000 stAuth0 (.resp false ⟨"", "", none⟩)).1 =
      .err .refreshFailed ∧
    (refresh cfgC2 1000 stAuth0 (.resp false ⟨"", "", none⟩)).2.storage =
      none ∧
    getStoredAuth 1000
      (refresh cfgC2 1000 stAuth0 (.resp false ⟨"", "", none⟩)).2 = none := by
  have h := (refresh_fail_closed cfgC2 1000 stAuth0 sess0 rfl
    (by decide)).1 ⟨"", "", none⟩
  exact ⟨h.1, h.2.1, h.2.2 1000⟩

/-- Counterexample to C6 as stated: with a configured `refreshThreshold` of
`0` (a value the `OSAClient` constructor passes through unchanged), the code
falls back to 300 s because of the `|| 300` falsiness test: with
`expiresAt = now + 200000 ms` the claimed delay `200000 - 0*1000` is strictly
positive, yet no timer is armed. -/
theorem setupAutoRefresh_zero_threshold :
    (setupAutoRefresh (osaClientConfig "http://api.test" none (some 0))
      ⟨"a", "r", some 200000⟩ 0 ⟨none, none⟩).refreshTimer = none ∧
    (0 : Int) < 200000 - 0 - 0 * 1000 := by
  decide

/-- C6 (amended): for numeric `expiresAt`, the auto-refresh delay is
`expiresAt - now - T*1000` where `T` is the configured `refreshThreshold`
except that a zero (falsy) or absent threshold falls back to 300 s; a
single-shot timer is armed with exactly that delay iff it is strictly
positive. -/
theorem setupAutoRefresh_delay (cfg : AuthConfig) (tokens : TokenPair)
    (now : Int) (st : AuthState) (e : Int)
    (he : tokens.expiresAt = some e) :
    (e - now - thresholdMs cfg > 0 →
      (setupAutoRefresh cfg tokens now st).refreshTimer =
        some (e - now - thresholdMs cfg)) ∧
    (e - now - thresholdMs cfg ≤ 0 →
      (setupAutoRefresh cfg tokens now st).refreshTimer = none) := by
  unfold setupAutoRefresh
  rw [he]
  constructor
  · intro h
    simp [jsSubInt, jsLt, h]
  · intro h
    have hn : ¬ (0 : Int) < e - now - thresholdMs cfg := by omega
    simp [jsSubInt, jsLt, hn]

/-- Witness for C6 (amended), on the spec's two worked examples (threshold
300 s): `expiresAt = now + 400000 ms` arms a 100000 ms timer, while
`expiresAt = now + 100000 ms` arms none. -/
theorem setupAutoRefresh_delay_witness :
    (setupAutoRefresh cfgC2 ⟨"a", "r", some 400000⟩ 0
      ⟨none, none⟩).refreshTimer = some 100000 ∧
    (setupAutoRefresh cfgC2 ⟨"a", "r", some 100000⟩ 0
      ⟨none, none⟩).refreshTimer = none := by
  constructor
  · have h := (setupAutoRefresh_delay cfgC2 ⟨"a", "r", some 400000⟩ 0
      ⟨none, none⟩ 400000 rfl).1 (by decide)
    simpa [thresholdMs, cfgC2] using h
  · exact (setupAutoRefresh_delay cfgC2 ⟨"a", "r", some 100000⟩ 0
      ⟨none, none⟩ 100000 rfl).2 (by decide)

/-! ## `parseAuthCallback` (`auth.ts` lines 48–84)

The fragment is parsed with `new URLSearchParams(str)`: split on `&`, drop
empty segments, split each segment at its first `=`, and percent-decode keys
and values (`+` is a space, `%XX` a byte, bytes are then UTF-8-decoded;
invalid escapes are kept verbatim and invalid UTF-8 turns into replacement
characters).  `params.get(k)` returns the first value for `k`, or null. -/

/-- UTF-8 encoding of one character. -/
def utf8EncodeChar (c : Char) : List Nat :=
  let n := c.toNat
  if n < 0x80 then [n]
  else if n < 0x800 then [0xC0 + n / 0x40, 0x80 + n % 0x40]
  else if n < 0x10000 then
    [0xE0 + n / 0x1000, 0x80 + n / 0x40 % 0x40, 0x80 + n % 0x40]
  else
    [0xF0 + n / 0x40000, 0x80 + n / 0x1000 % 0x40, 0x80 + n / 0x40 % 0x40,
     0x80 + n % 0x40]

/-- Is the byte a UTF-8 continuation byte (`10xxxxxx`)? -/
def utf8Cont (b : Nat) : Bool := 0x80 ≤ b ∧ b < 0xC0

/-- The Unicode replacement character, emitted for invalid UTF-8. -/
def replChar : Char := Char.ofNat 0xFFFD

/-- UTF-8 decoding with replacement characters, fuelled by the list length
(each step consumes at least one byte). -/
def utf8DecodeAux : Nat → List Nat → List Char
  | 0, _ => []
  | _, [] => []
  | fuel + 1, b :: rest =>
    if b < 0x80 then Char.ofNat b :: utf8DecodeAux fuel rest
    else if 0xC2 ≤ b ∧ b ≤ 0xDF then
      match rest with
      | b1 :: rest1 =>
        if utf8Cont b1 then
          Char.ofNat ((b - 0xC0) * 0x40 + (b1 - 0x80)) ::
            utf8DecodeAux fuel rest1
        else replChar :: utf8DecodeAux fuel rest
      | [] => [replChar]
    else if 0xE0 ≤ b ∧ b ≤ 0xEF then
      match rest with
      | b1 :: b2 :: rest2 =>
        if utf8Cont b1 ∧ utf8Cont b2 ∧
            0x800 ≤ (b - 0xE0) * 0x1000 + (b1 - 0x80) * 0x40 + (b2 - 0x80) ∧
            ¬ (0xD800 ≤ (b - 0xE0) * 0x1000 + (b1 - 0x80) * 0x40 + (b2 - 0x80) ∧
               (b - 0xE0) * 0x1000 + (b1 - 0x80) * 0x40 + (b2 - 0x80) ≤ 0xDFFF)
        then
          Char.ofNat ((b - 0xE0) * 0x1000 + (b1 - 0x80) * 0x40 + (b2 - 0x80)) ::
            utf8DecodeAux fuel rest2
        else replChar :: utf8DecodeAux fuel rest
      | _ => [replChar]
    else if 0xF0 ≤ b ∧ b ≤ 0xF4 then
      match rest with
      | b1 :: b2 :: b3 :: rest3 =>
        if utf8Cont b1 ∧ utf8Cont b2 ∧ utf8Cont b3 ∧
            0x10000 ≤ (b - 0xF0) * 0x40000 + (b1 - 0x80) * 0x1000 +
              (b2 - 0x80) * 0x40 + (b3 - 0x80) ∧
            (b - 0xF0) * 0x40000 + (b1 - 0x80) * 0x1000 +
              (b2 - 0x80) * 0x40 + (b3 - 0x80) ≤ 0x10FFFF
        then
          Char.ofNat ((b - 0xF0) * 0x40000 + (b1 - 0x80) * 0x1000 +
            (b2 - 0x80) * 0x40 + (b3 - 0x80)) :: utf8DecodeAux fuel rest3
        else replChar :: utf8DecodeAux fuel rest
      | _ => [replChar]
    else replChar :: utf8DecodeAux fuel rest

/-- UTF-8 decode a byte list into a string. -/
def utf8Decode (bs : List Nat) : String := ⟨utf8DecodeAux bs.length bs⟩

/-- Value of an ASCII hex digit. -/
def hexVal (c : Char) : Option Nat :=
  if 48 ≤ c.toNat ∧ c.toNat ≤ 57 then some (c.toNat - 48)
  else if 65 ≤ c.toNat ∧ c.toNat ≤ 70 then some (c.toNat - 55)
  else if 97 ≤ c.toNat ∧ c.toNat ≤ 102 then some (c.toNat - 87)
  else none

/-- Decode `application/x-www-form-urlencoded` content to bytes, fuelled by the
length (each step consumes at least one character). -/
def formDecodeAux : Nat → List Char → List Nat
  | 0, _ => []
  | _, [] => []
  | fuel + 1, c :: rest =>
    if c = '+' then 0x20 :: formDecodeAux fuel rest
    else if c = '%' then
      match rest with
      | h1 :: h2 :: rest2 =>
        match hexVal h1, hexVal h2 with
        | some v1, some v2 => (16 * v1 + v2) :: formDecodeAux fuel rest2
        | _, _ => utf8EncodeChar c ++ formDecodeAux fuel rest
      | _ => utf8EncodeChar c ++ formDecodeAux fuel rest
    else utf8EncodeChar c ++ formDecodeAux fuel rest

/-- Decode one key or value of a query string. -/
def formDecode (cs : List Char) : String :=
  utf8Decode (formDecodeAux cs.length cs)

/-- Split a query-string segment at its first `=`; a segment without `=` is
all key with an empty value. -/
def splitFirstEq : List Char → List Char × List Char
  | [] => ([], [])
  | c :: rest =>
    if c = '=' then ([], rest)
    else
      let (k, v) := splitFirstEq rest
      (c :: k, v)

/-- JavaScript `str.split('&')` (so `"a&&b"` gives `["a", "", "b"]` and the
empty string gives `[""]`). -/
def splitAmp : List Char → List Char → List (List Char)
  | [], acc => [acc.reverse]
  | c :: rest, acc =>
    if c = '&' then acc.reverse :: splitAmp rest []
    else splitAmp rest (c :: acc)

/-- The decoded (name, value) pairs of a query string, in order: split on
`&`, drop empty segments, split each at its first `=`, decode both halves. -/
def queryPairs (l : List Char) : List (String × String) :=
  ((splitAmp l []).filter (fun seg => seg ≠ [])).map
    (fun seg =>
      let (k, v) := splitFirstEq seg
      (formDecode k, formDecode v))

/-- Model of `URLSearchParams.get`: first value for the name, or null. -/
def urlParamsGet (l : List Char) (key : String) : Option String :=
  ((queryPairs l).find? (fun p => p.1 = key)).map (fun p => p.2)

/-- JavaScript string truthiness of a `string | null` value from
`params.get`: null and the empty string are falsy. -/
def jsTruthy : Option String → Bool
  | none => false
  | some s => s ≠ ""

/-- The string a truthy `string | null` value holds. -/
def jsStr (o : Option String) : String := o.getD ""

/-- Model of `parseInt(s, 10)`: skip leading whitespace, optional sign, then the
longest decimal-digit prefix; NaN (`none`) when there are no digits. -/
def parseIntJS (s : String) : JSNum :=
  let cs := s.data.dropWhile (fun c =>
    c = ' ' ∨ c = '\t' ∨ c = '\n' ∨ c = '\r' ∨ c.toNat = 11 ∨ c.toNat = 12)
  let signAndRest : Int × List Char :=
    match cs with
    | '-' :: rest => (-1, rest)
    | '+' :: rest => (1, rest)
    | _ => (1, cs)
  let digits := signAndRest.2.takeWhile (fun c => 48 ≤ c.toNat ∧ c.toNat ≤ 57)
  if digits = [] then none
  else
    some (signAndRest.1 *
      (digits.foldl (fun acc c => acc * 10 + (c.toNat - 48)) 0 : Nat))

/-- Computation `hash.startsWith('#') ? hash.slice(1) : hash`. -/
def stripHash (l : List Char) : List Char :=
  match l with
  | '#' :: rest => rest
  | l => l

/-- Model of `parseAuthCallback` (`auth.ts` lines 48–84): strip a leading `#`, require
the `auth=` prefix, read the seven parameters out of the inner query string,
fail if any of the five required ones is missing or empty, and default
`token_type` to `"Bearer"` and `display_name` to `""`. -/
def parseAuthCallback (hash : String) : Option AuthCallbackParams :=
  let hashContent := stripHash hash.data
  match hashContent with
  | 'a' :: 'u' :: 't' :: 'h' :: '=' :: paramsStr =>
    let accessToken := urlParamsGet paramsStr "access_token"
    let refreshToken := urlParamsGet paramsStr "refresh_token"
    let tokenType := urlParamsGet paramsStr "token_type"
    let expiresIn := urlParamsGet paramsStr "expires_in"
    let userId := urlParamsGet paramsStr "user_id"
    let displayName := urlParamsGet paramsStr "display_name"
    let externalId := urlParamsGet paramsStr "external_id"
    if jsTruthy accessToken = false ∨ jsTruthy refreshToken = false ∨
        jsTruthy expiresIn = false ∨ jsTruthy userId = false ∨
        jsTruthy externalId = false then none
    else
      some
        ⟨jsStr accessToken, jsStr refreshToken,
         (if jsStr tokenType = "" then "Bearer" else jsStr tokenType),
         parseIntJS (jsStr expiresIn), jsStr userId, jsStr displayName,
         jsStr externalId⟩
  | _ => none

/-- Model of `AuthNamespace.handleCallback` (`auth.ts` lines 247–251): parse the hash;
on failure return null touching nothing, on success delegate to
`AuthClient.handleCallback`. -/
def handleCallbackNS (cfg : AuthConfig) (hash : String) (now : Int)
    (st : AuthState) : Option (User × TokenPair) × AuthState :=
  match parseAuthCallback hash with
  | none => (none, st)
  | some p =>
    let r := handleCallbackClient cfg p now st
    (some r.1, r.2)

lemma setupAutoRefresh_storage (cfg : AuthConfig) (t : TokenPair) (now : Int)
    (st : AuthState) :
    (setupAutoRefresh cfg t now st).storage = st.storage := by
  simp only [setupAutoRefresh]
  split <;> rfl

/-- C3: for every callback fragment that parses successfully (all five
required fields present and non-empty) with a numeric `expires_in` of `k`
seconds, `handleCallback` returns the user and a token pair whose `expiresAt`
is the time of the call plus `k * 1000` ms, persists exactly that session,
and a subsequent storage read returns that same session. -/
theorem handleCallback_success (cfg : AuthConfig) (hash : String)
    (p : AuthCallbackParams) (now k : Int) (st : AuthState)
    (hp : parseAuthCallback hash = some p) (hk : p.expiresIn = some k) :
    (handleCallbackNS cfg hash now st).1 =
      some (⟨p.userId,
             if p.displayName = "" then none else some p.displayName,
             p.externalId⟩,
            ⟨p.accessToken, p.refreshToken, some (now + k * 1000)⟩) ∧
    memGet (handleCallbackNS cfg hash now st).2.storage =
      some ⟨⟨p.accessToken, p.refreshToken, some (now + k * 1000)⟩,
            ⟨p.userId,
             if p.displayName = "" then none else some p.displayName,
             p.externalId⟩⟩ := by
  unfold handleCallbackNS
  rw [hp]
  unfold handleCallbackClient
  dsimp only
  rw [hk]
  constructor
  · simp [jsAdd, jsMul]
  · rw [memGet]
    split
    · rw [setupAutoRefresh_storage]
      simp [memSet, jsAdd, jsMul]
    · simp [memSet, jsAdd, jsMul]

/-- A well-formed callback fragment (`expires_in = 3600`). -/
def hash3 : String :=
  "#auth=access_token=AT&refresh_token=RT&expires_in=3600&user_id=U1&external_id=EX"

/-- Witness for C3 on `hash3` at `now = 100`: the returned and persisted
session expires at `100 + 3600 * 1000 = 3600100` ms. -/
theorem handleCallback_success_witness :
    (handleCallbackNS cfgC2 hash3 100 ⟨none, none⟩).1 =
      some (⟨"U1", none, "EX"⟩, ⟨"AT", "RT", some 3600100⟩) ∧
    memGet (handleCallbackNS cfgC2 hash3 100 ⟨none, none⟩).2.storage =
      some ⟨⟨"AT", "RT", some 3600100⟩, ⟨"U1", none, "EX"⟩⟩ := by
  have h := handleCallback_success cfgC2 hash3
    ⟨"AT", "RT", "Bearer", some 3600, "U1", "", "EX"⟩ 100 3600 ⟨none, none⟩
    (by decide) rfl
  simpa using h

/-- The inner query string of a callback fragment: the same
`hashContent.slice(5)` that `parseAuthCallback` feeds to `URLSearchParams`. -/
def authQueryOf (hash : String) : List Char :=
  (stripHash hash.data).drop 5

/-- C4: a callback fragment whose inner query string is missing (or has
an empty value for) any one of the five required fields fails to parse, and
for every fragment that fails to parse — for whatever reason —
`handleCallback` returns null and leaves the state untouched, so repeated
calls with bad fragments never mutate state. -/
theorem handleCallback_bad_fragment (cfg : AuthConfig) (hash : String)
    (now : Int) (st : AuthState) :
    (∀ key, (key = "access_token" ∨ key = "refresh_token" ∨
        key = "expires_in" ∨ key = "user_id" ∨ key = "external_id") →
      jsTruthy (urlParamsGet (authQueryOf hash) key) = false →
      parseAuthCallback hash = none) ∧
    (parseAuthCallback hash = none →
      (handleCallbackNS cfg hash now st).1 = none ∧
      (handleCallbackNS cfg hash now st).2 = st ∧
      (handleCallbackNS cfg hash now
        ((handleCallbackNS cfg hash now st).2)).2 = st) := by
  constructor
  · intro key hkey hfalsy
    unfold authQueryOf at hfalsy
    unfold parseAuthCallback
    dsimp only
    split
    · rename_i hashContent paramsStr heq
      rw [heq] at hfalsy
      simp only [List.drop] at hfalsy
      rcases hkey with h | h | h | h | h <;> subst h <;> simp [hfalsy]
    · rfl
  · intro hnone
    unfold handleCallbackNS
    rw [hnone]
    exact ⟨rfl, rfl, rfl⟩

/-- A callback fragment missing the required `external_id` field. -/
def hash4 : String :=
  "#auth=access_token=AT&refresh_token=RT&expires_in=3600&user_id=U1"

/-- Witness for C4: `hash4` (no `external_id`) yields null and leaves a
previously stored session untouched. -/
theorem handleCallback_bad_fragment_witness :
    (handleCallbackNS cfgC2 hash4 100 ⟨some sess0, none⟩).1 = none ∧
    (handleCallbackNS cfgC2 hash4 100 ⟨some sess0, none⟩).2 =
      ⟨some sess0, none⟩ := by
  have h := handleCallback_bad_fragment cfgC2 hash4 100 ⟨some sess0, none⟩
  have hnone := h.1 "external_id" (by simp) (by decide)
  exact ⟨(h.2 hnone).1, (h.2 hnone).2.1⟩

/-! ## TokenStorage claims (`storage.ts`) -/

/-- A type-correct `StoredAuth` record with an empty access token. -/
def badSession : StoredAuth := ⟨⟨"", "rt", some 10⟩, ⟨"u", none, "x"⟩⟩

/-- Counterexample to C8 as stated: `MemoryTokenStorage.get` performs no
shape validation — after `set` of a record whose access token is empty, `get`
returns that partially-valid record rather than absent. -/
theorem memGet_returns_invalid_record :
    memGet (memSet badSession none) = some badSession ∧
    badSession.tokens.accessToken = "" ∧
    memGet (memSet badSession none) ≠ none :=
  ⟨rfl, rfl, by decide⟩

/-- C8 (amended): the persistent variant (`LocalTokenStorage.get`)
validates the record's shape before returning: a missing cell, corrupt JSON,
or a record lacking a non-empty access token, refresh token, or user id reads
as absent, and only fully-valid records are returned.  The transient
in-memory variant returns whatever record was set, without validation. -/
theorem storage_get_validation (cell : Option LSCell) (a : StoredAuth)
    (s : Option StoredAuth) :
    localGet none = none ∧
    localGet (some .corrupt) = none ∧
    (cell = some (.record a) →
      ((a.tokens.accessToken = "" ∨ a.tokens.refreshToken = "" ∨
          a.user.id = "") → localGet cell = none) ∧
      (¬ (a.tokens.accessToken = "" ∨ a.tokens.refreshToken = "" ∨
          a.user.id = "") → localGet cell = some a)) ∧
    memGet s = s := by
  refine ⟨rfl, rfl, ?_, rfl⟩
  intro hcell
  subst hcell
  constructor
  · intro h
    simp [localGet, h]
  · intro h
    simp [localGet, h]

/-- Witness for C8 (amended): the record with an empty access token reads as
absent from the persistent variant. -/
theorem storage_get_validation_witness :
    localGet (some (.record badSession)) = none := by
  exact (storage_get_validation (some (.record badSession)) badSession
    none).2.2.1 rfl |>.1 (by decide)

/-- Counterexample to C9 as stated: for `LocalTokenStorage`, `set` of a
session with an empty access token followed by `get` returns absent, not a
session deep-equal to the one set. -/
theorem local_set_get_not_roundtrip :
    localGet (localSet badSession none) = none ∧
    localGet (localSet badSession none) ≠ some badSession := by
  exact ⟨rfl, by decide⟩

/-- C9 (amended): a `set` followed by a `get` returns a deep-equal session in
the in-memory variant for every session, and in the persistent variant for
every session whose access token, refresh token and user id are non-empty
(the persistent `get` validates shape and reads other sessions as absent);
`clear` followed by `get` returns absent in both variants unconditionally. -/
theorem storage_roundtrip (a : StoredAuth) (s : Option StoredAuth)
    (cell : Option LSCell) :
    memGet (memSet a s) = some a ∧
    memGet (memClear s) = none ∧
    localGet (localClear cell) = none ∧
    (a.tokens.accessToken ≠ "" → a.tokens.refreshToken ≠ "" →
      a.user.id ≠ "" → localGet (localSet a cell) = some a) := by
  refine ⟨rfl, rfl, rfl, ?_⟩
  intro h1 h2 h3
  simp [localGet, localSet, h1, h2, h3]

/-- Witness for C9 (amended): a fully-valid session round-trips through the
persistent variant. -/
theorem storage_roundtrip_witness :
    memGet (memSet sess0 none) = some sess0 ∧
    localGet (localSet sess0 none) = some sess0 := by
  have h := storage_roundtrip sess0 none none
  exact ⟨h.1, h.2.2.2 (by decide) (by decide) (by decide)⟩

/-! ## `getLoginUrl` (`auth.ts` lines 100–110)

`getLoginUrl` resolves a relative base URL against `window.location.origin`,
builds `new URL(base + '/auth/login')`, sets the `provider` query parameter
(default argument `'orcid'`, never overridden by any caller), sets
`redirect_uri` when a truthy one was passed, and serialises.  The model
covers base URLs that the `URL` constructor leaves unchanged: absolute,
already-normalised, without query, fragment or trailing slash.
`URLSearchParams` serialisation percent-encodes values byte-wise over UTF-8
(uppercase hex), keeping alphanumerics and `*-._` and writing spaces as `+`;
the parameter names used here contain no encodable characters. -/

/-- Does the second list start with the first? (`String.prototype.startsWith`
on the code-unit prefix `"http"`.) -/
def hasPrefixChars : List Char → List Char → Bool
  | [], _ => true
  | _ :: _, [] => false
  | p :: ps, c :: cs => p = c ∧ hasPrefixChars ps cs

/-- Is the byte serialised verbatim by `application/x-www-form-urlencoded`
encoding? (ASCII alphanumerics and `*`, `-`, `.`, `_`.) -/
def isFormUnreserved (b : Nat) : Bool :=
  (48 ≤ b ∧ b ≤ 57) ∨ (65 ≤ b ∧ b ≤ 90) ∨ (97 ≤ b ∧ b ≤ 122) ∨
    b = 42 ∨ b = 45 ∨ b = 46 ∨ b = 95

/-- Uppercase hex digit. -/
def hexDigit (n : Nat) : Char :=
  if n < 10 then Char.ofNat (48 + n) else Char.ofNat (55 + n)

/-- Form-encode one byte. -/
def formEncodeByte (b : Nat) : List Char :=
  if b = 32 then ['+']
  else if isFormUnreserved b then [Char.ofNat b]
  else ['%', hexDigit (b / 16), hexDigit (b % 16)]

/-- Encode a value as `application/x-www-form-urlencoded` content. -/
def formEncode (s : String) : String :=
  ⟨(s.data.map (fun c => (utf8EncodeChar c).map formEncodeByte)).flatten.flatten⟩

/-- Serialise (name, value) pairs as `URLSearchParams.toString` does (names
here need no encoding). -/
def serializeParams : List (String × String) → String
  | [] => ""
  | [p] => p.1 ++ "=" ++ formEncode p.2
  | p :: rest => p.1 ++ "=" ++ formEncode p.2 ++ "&" ++ serializeParams rest

/-- Model of `AuthClient.getLoginUrl` (`auth.ts` lines 100–110) with the default
`provider = 'orcid'` its callers always use; `origin` is
`window.location.origin`. -/
def getLoginUrl (cfg : AuthConfig) (redirectUri : Option String)
    (origin : String) : String :=
  let base :=
    if hasPrefixChars "http".data cfg.baseUrl.data = true then cfg.baseUrl
    else origin ++ cfg.baseUrl
  let params := ("provider", "orcid") ::
    (match redirectUri with
     | some r => if r ≠ "" then [("redirect_uri", r)] else []
     | none => [])
  base ++ "/auth/login" ++ "?" ++ serializeParams params

/-- Absolute-base config for the C10 scenario. -/
def cfgLogin : AuthConfig := ⟨"https://api.example.org", some true, some 300⟩

/-- Counterexample to C10 as stated: the produced URL always carries
`provider=orcid` before `redirect_uri`, so it is not
`<baseUrl>/auth/login?redirect_uri=<uri>`. -/
theorem getLoginUrl_includes_provider :
    getLoginUrl cfgLogin (some "https://app.example.org/cb")
        "https://web.example.org" =
      "https://api.example.org/auth/login?provider=orcid&redirect_uri=https%3A%2F%2Fapp.example.org%2Fcb" ∧
    getLoginUrl cfgLogin (some "https://app.example.org/cb")
        "https://web.example.org" ≠
      "https://api.example.org/auth/login?redirect_uri=https%3A%2F%2Fapp.example.org%2Fcb" := by
  constructor <;> decide

/-- C10 (amended): for every non-empty `redirectUri` and every absolute
(`http`-prefixed) base URL, `getLoginUrl` returns exactly
`<baseUrl>/auth/login?provider=orcid&redirect_uri=<form-encoded uri>` — the
claim's URL plus the always-present `provider=orcid` parameter — and, being a
pure function, deterministically so for identical inputs. -/
theorem getLoginUrl_shape (cfg : AuthConfig) (r origin : String)
    (hr : r ≠ "")
    (hb : hasPrefixChars "http".data cfg.baseUrl.data = true) :
    getLoginUrl cfg (some r) origin =
      cfg.baseUrl ++ "/auth/login?provider=orcid&redirect_uri=" ++
        formEncode r := by
  unfold getLoginUrl
  apply String.ext
  have horcid : formEncode "orcid" = "orcid" := by decide
  simp [hb, hr, serializeParams, horcid, String.data_append]

/-- Witness for C10 (amended) at a concrete base URL and redirect target. -/
theorem getLoginUrl_shape_witness :
    getLoginUrl cfgLogin (some "https://app.example.org/cb")
        "https://web.example.org" =
      cfgLogin.baseUrl ++ "/auth/login?provider=orcid&redirect_uri=" ++
        formEncode "https://app.example.org/cb" :=
  getLoginUrl_shape cfgLogin "https://app.example.org/cb"
    "https://web.example.org" (by decide) (by decide)

end OSA
